import Mathlib

/-!
Verification development for `scripts/touch_log_viewer.py` of the PS-Utils
repository.

The Python program is a single-threaded, touchscreen-driven log viewer.  We
give a shallow embedding of the parts of the program the specification talks
about:

* the touch event loop and its debounce gate, and the keyboard fallback loop
  (`listen_for_touches`);
* the view registry construction (`build_available_views`) together with the
  constructor's fatal-exit guard;
* the viewer state machine: `kill_current_process`, `switch_view`,
  `create_formatter_script`, `start_pi_monitor`, `start_tmux_apache_view`
  and `cleanup`.

Side effects on the operating system (subprocess spawns, terminations, tmux
commands, sleeps) are recorded as an explicit `Action` trace; the set of
still-running processes spawned by the program and the set of temporary
files on disk are carried in the state.  Machine behaviour that the program
only observes (whether a terminated process exits within the 0.5 s grace
period, whether a view command raises) is supplied as explicit boolean
oracles.
-/

namespace TouchLogViewer

/-- One evdev input event as consumed by the touch loop of
`listen_for_touches`: event type, code and value, together with the wall
clock time `time.time()` at which the handler runs. -/
structure TouchEv where
  etype : Nat
  code : Nat
  value : Nat
  time : ℚ
  deriving DecidableEq

/-- The debounce window of `listen_for_touches`: `debounce_time = 1.0`
(seconds). -/
def debounce_time : ℚ := 1

/-- One iteration of the touch event loop.  The loop state is the pair
`(last_touch_time, transitions)` where `transitions` counts the calls to
`switch_view` made so far.  Mirrors: touch events are those with
`event.type == 1 and event.code == 330`; on a touch down (`event.value == 1`)
the view is switched and `last_touch_time` updated only when
`current_time - last_touch_time > debounce_time`. -/
def touch_loop_step (st : ℚ × Nat) (e : TouchEv) : ℚ × Nat :=
  if e.etype = 1 ∧ e.code = 330 then
    if e.value = 1 then
      if e.time - st.1 > debounce_time then (e.time, st.2 + 1) else st
    else st
  else st

/-- The touch event loop over a finite list of events; `last_touch_time`
starts at `0`.  Returns the final `(last_touch_time, transitions)`. -/
def touch_loop (evs : List TouchEv) : ℚ × Nat :=
  evs.foldl touch_loop_step (0, 0)

/-- The keyboard fallback loop of `listen_for_touches`: a space keypress
calls `switch_view` unconditionally, `q` (after `.lower()`) breaks out of
the loop, every other key is ignored.  There is no debounce gate on this
path.  Returns the number of view transitions started. -/
def keyboard_transitions : List Char → Nat
  | [] => 0
  | k :: ks =>
    if k = ' ' then keyboard_transitions ks + 1
    else if k.toLower = 'q' then 0
    else keyboard_transitions ks

/-- Availability of the external tools probed by `build_available_views`
via `check_command`. -/
structure Tools where
  tmux : Bool
  multitail : Bool
  htop : Bool
  top : Bool
  deriving DecidableEq

/-- A view command as stored in the `'command'` field of a view dictionary
built by `build_available_views`.  Single-log views capture the resolved
log path; site views capture the site key. -/
inductive ViewCmd where
  | start_htop
  | start_top
  | start_single_log (path : String)
  | start_site_logs (site : String)
  | start_tmux_apache_view
  | start_tmux_multiview
  | start_multitail_combined
  | start_pi_monitor
  deriving DecidableEq

/-- The `priority_logs` list of `build_available_views`, in source order. -/
def priority_logs : List String :=
  ["zemia_access", "zemia_error",
   "dev_zemia_access", "dev_zemia_error",
   "syslog", "auth",
   "apache_access", "apache_error",
   "nginx_access", "nginx_error"]

/-- Lean rendering of `TouchLogViewer.build_available_views`.  The log
catalog `log_paths` is the dictionary of detected logs (name, path) in
insertion order; `t` records which external tools are available.  The
construction follows the source line by line: an optional system-stats
view, single-log views for the priority logs present in the catalog,
combined site views whenever both logs of a site are present, tmux views
gated on tmux availability and at least two catalog entries, a multitail
view gated on multitail availability and at least two catalog entries, and
finally the unconditional Pi System Monitor view. -/
def build_available_views (log_paths : List (String × String)) (t : Tools) :
    List ViewCmd :=
  (if t.htop then [ViewCmd.start_htop]
   else if t.top then [ViewCmd.start_top]
   else [])
  ++ priority_logs.filterMap
      (fun n => (log_paths.lookup n).map (fun p => ViewCmd.start_single_log p))
  ++ (if ((log_paths.lookup "zemia_access").isSome
        && (log_paths.lookup "zemia_error").isSome) = true
      then [ViewCmd.start_site_logs "zemia"] else [])
  ++ (if ((log_paths.lookup "dev_zemia_access").isSome
        && (log_paths.lookup "dev_zemia_error").isSome) = true
      then [ViewCmd.start_site_logs "dev_zemia"] else [])
  ++ (if t.tmux = true ∧ 2 ≤ log_paths.length then
        (if ((log_paths.lookup "zemia_access").isSome
            && (log_paths.lookup "zemia_error").isSome
            && (log_paths.lookup "dev_zemia_access").isSome
            && (log_paths.lookup "dev_zemia_error").isSome) = true
         then [ViewCmd.start_tmux_apache_view] else [])
        ++ [ViewCmd.start_tmux_multiview]
      else [])
  ++ (if t.multitail = true ∧ 2 ≤ log_paths.length then
        [ViewCmd.start_multitail_combined] else [])
  ++ [ViewCmd.start_pi_monitor]

/-- The constructor guard `if not self.views: ... sys.exit(1)` of
`TouchLogViewer.__init__`: `true` exactly when the fatal-exit branch is
taken. -/
def init_fatal_exit (log_paths : List (String × String)) (t : Tools) : Bool :=
  (build_available_views log_paths t).isEmpty

/-- The payload of a tmux `send-keys` command in `start_tmux_apache_view`,
structured after the three f-string shapes of the source: a compact-format
tail pipeline through a freshly created formatter script, a plain tail, or
the "Log file not found" message for a missing path. -/
inductive PaneCmd where
  | compactTail (title : String) (path : String) (formatterScript : Nat)
  | plainTail (title : String) (path : String)
  | notFound (title : String)
  deriving DecidableEq

/-- An observable operating-system action performed by the viewer.  The
`terminateProc` action records, alongside the pid, whether the process
exited within the 0.5 s grace period that follows it (environment
behaviour the program observes through `poll()`). -/
inductive Action where
  | tmuxKillSession (session : String)
  | tmuxNewSession (session : String)
  | tmuxSplitWindow (flag : String)
  | tmuxSelectPane (target : String)
  | tmuxSendKeys (target : String) (cmd : PaneCmd)
  | tmuxAttach (session : String)
  | terminateProc (pid : Nat) (exitedInGrace : Bool)
  | killProc (pid : Nat)
  | spawnProc (pid : Nat)
  | sleepSec (seconds : ℚ)
  | startAttempt (view : Nat)
  | runWhich (command : String)
  deriving DecidableEq

/-- A Python exception relevant to the viewer's subprocess calls. -/
inductive PyError where
  | valueError
  | fileNotFoundError
  deriving DecidableEq

/-- The keyword arguments a `subprocess.run` call site passes:
`capture_output=True` and `stderr=subprocess.DEVNULL`. -/
structure RunKwargs where
  capture_output : Bool
  stderr_devnull : Bool
  deriving DecidableEq

/-- Semantics of `subprocess.run` as the viewer invokes it.  Passing
`capture_output=True` together with a `stderr` argument raises
`ValueError` before any process is spawned (CPython rejects the
conflicting keywords).  Otherwise the call raises `FileNotFoundError`
exactly when the executable is absent, and else performs the recorded
action; a non-zero exit status does not raise (no `check=True`
anywhere in the program). -/
def subprocess_run (binaryPresent : Bool) (kw : RunKwargs) (act : Action) :
    Except PyError (List Action) :=
  if kw.capture_output && kw.stderr_devnull then Except.error PyError.valueError
  else if binaryPresent then Except.ok [act]
  else Except.error PyError.fileNotFoundError

/-- Semantics of `subprocess.Popen`: raises `FileNotFoundError` when the
executable is absent, otherwise performs the recorded action. -/
def subprocess_popen (binaryPresent : Bool) (act : Action) :
    Except PyError (List Action) :=
  if binaryPresent then Except.ok [act] else Except.error PyError.fileNotFoundError

/-- Keyword arguments `capture_output=True` alone (the
`kill_current_process` call sites). -/
def kw_capture : RunKwargs :=
  { capture_output := true, stderr_devnull := false }

/-- Keyword arguments `capture_output=True, stderr=subprocess.DEVNULL`
(the `check_command`, `start_tmux_apache_view` first statement and
`cleanup` call sites) — the combination `subprocess.run` rejects. -/
def kw_capture_devnull : RunKwargs :=
  { capture_output := true, stderr_devnull := true }

/-- No keyword arguments (the remaining tmux command call sites). -/
def kw_none : RunKwargs :=
  { capture_output := false, stderr_devnull := false }

/-- Lean rendering of `TouchLogViewer.check_command`.  The probe
`subprocess.run(['which', command], capture_output=True,
stderr=subprocess.DEVNULL)` raises `ValueError` for the conflicting
keywords; the bare `except` turns that into `False`.  `whichPresent` is
the availability of the `which` binary and `found` the exit status the
probe would have reported had the call been legal — neither is ever
consulted, so every probe reports the tool as unavailable. -/
def check_command (whichPresent found : Bool) (command : String) : Bool :=
  match subprocess_run whichPresent kw_capture_devnull
      (Action.runWhich command) with
  | Except.ok _ => found
  | Except.error _ => false

/-- The mutable state of a `TouchLogViewer` instance, together with the
parts of the environment it manipulates.  `current_view`,
`current_process`, `temp_scripts`, `views` and `log_paths` mirror the
Python attributes (process handles and temporary file names are numbered by
the counters `next_pid` and `next_file`).  `alive` is the set of processes
spawned by the viewer that are still running, and `files` the set of
temporary files currently on disk. -/
structure ViewerState where
  current_view : Nat
  current_process : Option Nat
  temp_scripts : List Nat
  views : List String
  log_paths : List (String × String)
  alive : List Nat
  files : List Nat
  next_pid : Nat
  next_file : Nat
  deriving DecidableEq

/-- Lean rendering of `TouchLogViewer.kill_current_process`.  If no process
is current, nothing happens.  Otherwise a `try` block kills the two fixed
tmux sessions (`subprocess.run` with `capture_output=True` only, a legal
call), asks the process to terminate, sleeps 0.5 s, and force-kills the
process exactly when it has not exited by then (`poll() is None`).  When a
kill-session call raises — `FileNotFoundError` on a host without the tmux
binary (`tm = false`) — the `except Exception` branch swallows the error
and the remaining statements of the `try` body, including the terminate
and kill, are skipped; the `finally` clears `current_process` either way,
so on the exception path the process keeps running while the handle is
dropped.  `tm` is the availability of the tmux binary and `e` whether the
process exits within the grace period. -/
def kill_current_process (tm e : Bool) (s : ViewerState) :
    ViewerState × List Action :=
  match s.current_process with
  | none => (s, [])
  | some p =>
    match subprocess_run tm kw_capture
        (Action.tmuxKillSession "logmonitoring") with
    | Except.error _ => ({ s with current_process := none }, [])
    | Except.ok a1 =>
      match subprocess_run tm kw_capture
          (Action.tmuxKillSession "apachelogs") with
      | Except.error _ => ({ s with current_process := none }, a1)
      | Except.ok a2 =>
        ({ s with current_process := none, alive := s.alive.erase p },
         a1 ++ a2
           ++ [Action.terminateProc p e, Action.sleepSec (1 / 2)]
           ++ (if e then [] else [Action.killProc p]))

/-- Lean rendering of `TouchLogViewer.switch_view`.  The current process is
killed, the program sleeps 0.5 s, then the command of view `current_view`
is attempted.  On success (`ok = true`) it spawns one process which becomes
`current_process`; on an exception the error is caught.  In both branches
`current_view` advances by one modulo the number of views. -/
def switch_view (tm e ok : Bool) (s : ViewerState) :
    ViewerState × List Action :=
  let ks := kill_current_process tm e s
  let s1 := ks.1
  if ok then
    let p := s1.next_pid
    ({ s1 with
        current_process := some p,
        alive := s1.alive ++ [p],
        next_pid := p + 1,
        current_view := (s1.current_view + 1) % s1.views.length },
     ks.2 ++ [Action.sleepSec (1 / 2), Action.startAttempt s1.current_view,
              Action.spawnProc p])
  else
    ({ s1 with current_view := (s1.current_view + 1) % s1.views.length },
     ks.2 ++ [Action.sleepSec (1 / 2), Action.startAttempt s1.current_view])

/-- A finite sequence of admitted view-switch signals, each handled by
`switch_view`, on a host where the tmux binary is present (`tm = true`) or
absent (`tm = false`).  The oracle list supplies, per signal, whether the
previous process exits within the grace period and whether the view
command succeeds. -/
def runSwitches (tm : Bool) :
    List (Bool × Bool) → ViewerState → ViewerState × List Action
  | [], s => (s, [])
  | o :: os, s =>
    let r1 := switch_view tm o.1 o.2 s
    let r2 := runSwitches tm os r1.1
    (r2.1, r1.2 ++ r2.2)

/-- Lean rendering of `TouchLogViewer.create_formatter_script`: a fresh
temporary file is written to disk, made executable, and appended to
`temp_scripts` for cleanup; its name is returned. -/
def create_formatter_script (s : ViewerState) : ViewerState × Nat :=
  ({ s with
      files := s.files ++ [s.next_file],
      temp_scripts := s.temp_scripts ++ [s.next_file],
      next_file := s.next_file + 1 },
   s.next_file)

/-- Lean rendering of `TouchLogViewer.start_pi_monitor`: the monitoring
shell script is written to a fresh temporary file, made executable, and run
with bash; the bash process becomes `current_process`.  Note, faithfully to
the source, the script path is not appended to `temp_scripts`. -/
def start_pi_monitor (s : ViewerState) : ViewerState × List Action :=
  let f := s.next_file
  let s1 := { s with files := s.files ++ [f], next_file := f + 1 }
  let p := s1.next_pid
  ({ s1 with
      current_process := some p,
      alive := s1.alive ++ [p],
      next_pid := p + 1 },
   [Action.spawnProc p])

/-- The for-loop of `cleanup` over `temp_scripts`: each tracked script is
unlinked; a missing file raises inside the loop body and the exception is
swallowed by the bare `except: pass`.  Returns the files remaining on disk
and the number of swallowed unlink errors. -/
def unlink_scripts : List Nat → List Nat → List Nat × Nat
  | [], files => (files, 0)
  | f :: fs, files =>
    if f ∈ files then unlink_scripts fs (files.erase f)
    else
      let r := unlink_scripts fs files
      (r.1, r.2 + 1)

/-- Lean rendering of `TouchLogViewer.cleanup`: kill the current process,
unlink every tracked temporary script (swallowing unlink errors inside the
loop), clear `temp_scripts`, then issue the two trailing tmux kill-session
calls.  Those trailing calls pass `capture_output=True` together with
`stderr=subprocess.DEVNULL`, the combination `subprocess.run` rejects, and
they are not inside any `try`: the first of them raises `ValueError` on
every invocation, the second and the final print are never reached, and
the exception propagates out of `cleanup`.  Returns the new state (the
mutations before the raise persist), the action trace, the number of
swallowed unlink errors, and the uncaught exception if one is raised. -/
def cleanup (tm e : Bool) (s : ViewerState) :
    ViewerState × List Action × Nat × Option PyError :=
  let ks := kill_current_process tm e s
  let s1 := ks.1
  let ur := unlink_scripts s1.temp_scripts s1.files
  let s2 : ViewerState := { s1 with files := ur.1, temp_scripts := [] }
  match subprocess_run tm kw_capture_devnull
      (Action.tmuxKillSession "logmonitoring") with
  | Except.error err => (s2, ks.2, ur.2, some err)
  | Except.ok a1 =>
    match subprocess_run tm kw_capture_devnull
        (Action.tmuxKillSession "apachelogs") with
    | Except.error err => (s2, ks.2 ++ a1, ur.2, some err)
    | Except.ok a2 => (s2, ks.2 ++ a1 ++ a2, ur.2, none)

/-- Leading-segment test on character lists (helper for `strContains`). -/
def charsLeadWith : List Char → List Char → Bool
  | [], _ => true
  | _ :: _, [] => false
  | a :: as, b :: bs => a = b && charsLeadWith as bs

/-- Containment test on character lists (helper for `strContains`). -/
def charsContain (needle : List Char) : List Char → Bool
  | [] => charsLeadWith needle []
  | b :: bs => charsLeadWith needle (b :: bs) || charsContain needle bs

/-- Python's substring test `needle in hay`. -/
def strContains (needle hay : String) : Bool :=
  charsContain needle.data hay.data

/-- The `logs_config` table of `start_tmux_apache_view`: pane index, pane
title, and the catalog lookup of the corresponding log. -/
def apache_logs_config (lp : List (String × String)) :
    List (Nat × String × Option String) :=
  [(0, "MAIN SITE ACCESS (zemia.uk)", lp.lookup "zemia_access"),
   (1, "MAIN SITE ERRORS (zemia.uk)", lp.lookup "zemia_error"),
   (2, "DEV SITE ACCESS (dev.zemia.uk)", lp.lookup "dev_zemia_access"),
   (3, "DEV SITE ERRORS (dev.zemia.uk)", lp.lookup "dev_zemia_error")]

/-- One iteration of the pane loop of `start_tmux_apache_view`: panes whose
title contains `ACCESS` get the compact pipeline through a freshly created
formatter script; other present logs get a plain tail; a missing log gets
the not-found message.  Each pane receives exactly one `send-keys`, issued
by a plain `subprocess.run` (no keyword arguments). -/
def apache_pane_step (tm : Bool) (acc : ViewerState × List Action)
    (cfg : Nat × String × Option String) :
    Except PyError (ViewerState × List Action) :=
  match cfg with
  | (pane, title, some lpath) =>
    if strContains "ACCESS" title then
      let r := create_formatter_script acc.1
      do
        let a ← subprocess_run tm kw_none (Action.tmuxSendKeys (toString pane)
          (PaneCmd.compactTail title lpath r.2))
        pure (r.1, acc.2 ++ a)
    else do
      let a ← subprocess_run tm kw_none (Action.tmuxSendKeys (toString pane)
        (PaneCmd.plainTail title lpath))
      pure (acc.1, acc.2 ++ a)
  | (pane, title, none) => do
    let a ← subprocess_run tm kw_none (Action.tmuxSendKeys (toString pane)
      (PaneCmd.notFound title))
    pure (acc.1, acc.2 ++ a)

/-- Lean rendering of `TouchLogViewer.start_tmux_apache_view`, statement by
statement.  Its first statement passes `capture_output=True` together with
`stderr=subprocess.DEVNULL`, so it raises `ValueError` unconditionally —
before the session is destroyed or created, before any split, send-keys or
attach.  The remaining statements (a fresh `apachelogs` session, the three
splits of the 2x2 grid, one send-keys per pane, the final attach whose
subprocess becomes `current_process`) are kept in the model but are dead
code: the function always returns the `ValueError` short-circuit, which
`switch_view`'s `except` then catches. -/
def start_tmux_apache_view (tm : Bool) (s : ViewerState) :
    Except PyError (ViewerState × List Action) := do
  let a1 ← subprocess_run tm kw_capture_devnull
    (Action.tmuxKillSession "apachelogs")
  let a2 ← subprocess_run tm kw_none (Action.tmuxNewSession "apachelogs")
  let a3 ← subprocess_run tm kw_none (Action.tmuxSplitWindow "-h")
  let a4 ← subprocess_run tm kw_none (Action.tmuxSelectPane "0")
  let a5 ← subprocess_run tm kw_none (Action.tmuxSplitWindow "-v")
  let a6 ← subprocess_run tm kw_none (Action.tmuxSelectPane "2")
  let a7 ← subprocess_run tm kw_none (Action.tmuxSplitWindow "-v")
  let r ← (apache_logs_config s.log_paths).foldlM (apache_pane_step tm)
    (s, a1 ++ a2 ++ a3 ++ a4 ++ a5 ++ a6 ++ a7)
  let aAtt ← subprocess_popen tm (Action.tmuxAttach "apachelogs")
  let p := r.1.next_pid
  pure ({ r.1 with
      current_process := some p,
      alive := r.1.alive ++ [p],
      next_pid := p + 1 },
    r.2 ++ aAtt)

/-- Effect of one action on the set of running processes spawned by the
viewer: a spawn adds the pid; a terminate removes it when the process exits
within the grace period; a force-kill removes it; the other actions do not
touch processes. -/
def applyAction (alive : List Nat) : Action → List Nat
  | Action.spawnProc p => alive ++ [p]
  | Action.terminateProc p exited => if exited then alive.erase p else alive
  | Action.killProc p => alive.erase p
  | _ => alive

/-- Running-process set after a whole action trace. -/
def foldAlive (alive : List Nat) (acts : List Action) : List Nat :=
  acts.foldl applyAction alive

/-- Discriminator for spawn actions. -/
def isSpawnProc : Action → Bool
  | Action.spawnProc _ => true
  | _ => false

/-- Discriminator for terminate actions. -/
def isTerminateProc : Action → Bool
  | Action.terminateProc _ _ => true
  | _ => false

/-- The serialization invariant checked along an action trace starting from
the running-process set `alive`: before every spawn the set of running
viewer processes is empty (the previous stop completed), and after every
action at most one viewer process is running. -/
def traceOk (alive : List Nat) : List Action → Bool
  | [] => true
  | a :: as =>
    (!(isSpawnProc a) || alive.isEmpty)
    && decide ((applyAction alive a).length ≤ 1)
    && traceOk (applyAction alive a) as

/-- Consistency between the bookkeeping fields of the state: the set of
running viewer processes is empty, or is exactly the current process. -/
def procInv (s : ViewerState) : Prop :=
  match s.current_process with
  | none => s.alive = []
  | some p => s.alive = [] ∨ s.alive = [p]

/-- The view indices whose commands were attempted, in trace order. -/
def attemptsOf : List Action → List Nat
  | [] => []
  | Action.startAttempt i :: as => i :: attemptsOf as
  | _ :: as => attemptsOf as

/-- A freshly constructed viewer with three views and an empty environment,
used to evaluate the model at concrete inputs. -/
def initState : ViewerState :=
  { current_view := 0
    current_process := none
    temp_scripts := []
    views := ["Zemia Access Log", "Zemia Error Log", "Pi System Monitor"]
    log_paths := []
    alive := []
    files := []
    next_pid := 0
    next_file := 0 }

/-- The four-site log catalog of the 4-pane scenario. -/
def lp_four : List (String × String) :=
  [("zemia_access", "/var/log/apache2/zemia-access.log"),
   ("zemia_error", "/var/log/apache2/zemia-error.log"),
   ("dev_zemia_access", "/var/log/apache2/dev-zemia-access.log"),
   ("dev_zemia_error", "/var/log/apache2/dev-zemia-error.log")]

/-- The two-log main-site catalog of the registry scenario. -/
def lp_zemia2 : List (String × String) :=
  [("zemia_access", "/var/log/apache2/zemia-access.log"),
   ("zemia_error", "/var/log/apache2/zemia-error.log")]

/-- Tool availability with every probed tool absent. -/
def no_tools : Tools :=
  { tmux := false, multitail := false, htop := false, top := false }

/-- A viewer state with one running current process (pid 5). -/
def procState : ViewerState :=
  { initState with current_process := some 5, alive := [5] }

/-- A viewer state whose catalog holds all four site logs. -/
def s_four : ViewerState :=
  { initState with log_paths := lp_four }

/-- Folding the alive set commutes with trace concatenation. -/
theorem foldAlive_append (al : List Nat) (xs ys : List Action) :
    foldAlive al (xs ++ ys) = foldAlive (foldAlive al xs) ys := by
  simp [foldAlive, List.foldl_append]

/-- The serialization check splits along trace concatenation. -/
theorem traceOk_append (al : List Nat) (xs ys : List Action) :
    traceOk al (xs ++ ys) = (traceOk al xs && traceOk (foldAlive al xs) ys) := by
  induction xs generalizing al with
  | nil => simp [traceOk, foldAlive]
  | cons a as ih =>
    simp [traceOk, foldAlive, List.foldl_cons, ih, Bool.and_assoc]

/-- After `kill_current_process` the current process handle is cleared, on
every path: the no-process branch, the exception branch and the full
termination branch. -/
theorem kill_current_process_clears (tm e : Bool) (s : ViewerState) :
    ((kill_current_process tm e s).1).current_process = none := by
  cases h : s.current_process <;> cases tm <;>
    simp [kill_current_process, subprocess_run, kw_capture, h]

/-- One `switch_view` step on a tmux-equipped host preserves the
bookkeeping invariant, satisfies the serialization check along its action
trace, and its final alive set agrees with the trace semantics. -/
theorem switch_view_trace (e ok : Bool) (s : ViewerState) (h : procInv s) :
    traceOk s.alive (switch_view true e ok s).2 = true ∧
    procInv (switch_view true e ok s).1 ∧
    ((switch_view true e ok s).1).alive
      = foldAlive s.alive (switch_view true e ok s).2 := by
  cases s with
  | mk cv cp ts vs lp al fi np nf =>
    cases cp with
    | none =>
      have hal : al = [] := h
      subst hal
      cases e <;> cases ok <;>
        simp [switch_view, kill_current_process, subprocess_run, kw_capture,
          traceOk, applyAction, foldAlive, procInv, isSpawnProc, List.foldl]
    | some p =>
      have h' : al = [] ∨ al = [p] := h
      rcases h' with hal | hal <;> subst hal <;> cases e <;> cases ok <;>
        simp [switch_view, kill_current_process, subprocess_run, kw_capture,
          traceOk, applyAction, foldAlive, procInv, isSpawnProc, List.foldl]

/-- Any sequence of admitted switch signals on a tmux-equipped host
preserves the bookkeeping invariant and satisfies the serialization check
along the whole trace.  (On a host without the tmux binary this fails: see
the C1 theorem.) -/
theorem runSwitches_trace (os : List (Bool × Bool)) (s : ViewerState)
    (h : procInv s) :
    traceOk s.alive (runSwitches true os s).2 = true ∧
    procInv (runSwitches true os s).1 ∧
    ((runSwitches true os s).1).alive
      = foldAlive s.alive (runSwitches true os s).2 := by
  induction os generalizing s with
  | nil => exact ⟨rfl, h, rfl⟩
  | cons o os ih =>
    obtain ⟨h1, h2, h3⟩ := switch_view_trace o.1 o.2 s h
    obtain ⟨g1, g2, g3⟩ := ih (switch_view true o.1 o.2 s).1 h2
    refine ⟨?_, g2, ?_⟩
    · show traceOk s.alive ((switch_view true o.1 o.2 s).2
        ++ (runSwitches true os (switch_view true o.1 o.2 s).1).2) = true
      rw [traceOk_append, ← h3, h1, g1]
      rfl
    · show ((runSwitches true os (switch_view true o.1 o.2 s).1).1).alive
        = foldAlive s.alive ((switch_view true o.1 o.2 s).2
            ++ (runSwitches true os (switch_view true o.1 o.2 s).1).2)
      rw [foldAlive_append, ← h3, g3]

/-- A `switch_view` step does not change the view list. -/
theorem switch_view_views (tm e ok : Bool) (s : ViewerState) :
    ((switch_view tm e ok s).1).views = s.views := by
  cases h : s.current_process <;> cases tm <;> cases ok <;>
    simp [switch_view, kill_current_process, subprocess_run, kw_capture, h]

/-- A `switch_view` step advances the cursor by one modulo the number of
views, in the success branch and in the exception branch alike, on hosts
with and without tmux. -/
theorem switch_view_cv (tm e ok : Bool) (s : ViewerState) :
    ((switch_view tm e ok s).1).current_view
      = (s.current_view + 1) % s.views.length := by
  cases h : s.current_process <;> cases tm <;> cases ok <;>
    simp [switch_view, kill_current_process, subprocess_run, kw_capture, h]

/-- Cursor position after a sequence of switch signals. -/
theorem runSwitches_cv (tm : Bool) (os : List (Bool × Bool))
    (s : ViewerState) (h : s.current_view < s.views.length) :
    ((runSwitches tm os s).1).current_view
      = (s.current_view + os.length) % s.views.length := by
  induction os generalizing s with
  | nil => simpa [runSwitches] using (Nat.mod_eq_of_lt h).symm
  | cons o os ih =>
    have hn : 0 < s.views.length := Nat.lt_of_le_of_lt (Nat.zero_le _) h
    have h1 : ((switch_view tm o.1 o.2 s).1).current_view
        < ((switch_view tm o.1 o.2 s).1).views.length := by
      rw [switch_view_cv, switch_view_views]
      exact Nat.mod_lt _ hn
    show ((runSwitches tm os (switch_view tm o.1 o.2 s).1).1).current_view = _
    rw [ih _ h1, switch_view_cv, switch_view_views, Nat.mod_add_mod,
      List.length_cons]
    congr 1
    omega

/-- Attempt extraction commutes with trace concatenation. -/
theorem attemptsOf_append (xs ys : List Action) :
    attemptsOf (xs ++ ys) = attemptsOf xs ++ attemptsOf ys := by
  induction xs with
  | nil => rfl
  | cons a as ih => cases a <;> simp [attemptsOf, ih]

/-- Each `switch_view` step attempts exactly the view under the cursor. -/
theorem switch_view_attempts (tm e ok : Bool) (s : ViewerState) :
    attemptsOf (switch_view tm e ok s).2 = [s.current_view] := by
  cases h : s.current_process <;> cases tm <;> cases e <;> cases ok <;>
    simp [switch_view, kill_current_process, subprocess_run, kw_capture, h,
      attemptsOf, attemptsOf_append]

/-- The views attempted by a sequence of switch signals, in order. -/
theorem runSwitches_attempts (tm : Bool) (os : List (Bool × Bool))
    (s : ViewerState) (h : s.current_view < s.views.length) :
    attemptsOf (runSwitches tm os s).2
      = (List.range os.length).map
          (fun k => (s.current_view + k) % s.views.length) := by
  induction os generalizing s with
  | nil => rfl
  | cons o os ih =>
    have hn : 0 < s.views.length := Nat.lt_of_le_of_lt (Nat.zero_le _) h
    have h1 : ((switch_view tm o.1 o.2 s).1).current_view
        < ((switch_view tm o.1 o.2 s).1).views.length := by
      rw [switch_view_cv, switch_view_views]
      exact Nat.mod_lt _ hn
    show attemptsOf ((switch_view tm o.1 o.2 s).2
        ++ (runSwitches tm os (switch_view tm o.1 o.2 s).1).2) = _
    rw [attemptsOf_append, switch_view_attempts, ih _ h1, switch_view_cv,
      switch_view_views, List.length_cons, List.range_succ_eq_map,
      List.map_cons, List.map_map, List.singleton_append]
    congr 1
    · simpa using (Nat.mod_eq_of_lt h).symm
    · refine List.map_congr_left (fun k hk => ?_)
      show ((s.current_view + 1) % s.views.length + k) % s.views.length
        = (s.current_view + (k + 1)) % s.views.length
      rw [Nat.mod_add_mod]
      congr 1
      omega

/-- Rotating `range n` by a fixed offset modulo `n` is a permutation. -/
theorem range_add_mod_perm (i n : Nat) (h : i < n) :
    ((List.range n).map (fun k => (i + k) % n)).Perm (List.range n) := by
  have hn : 0 < n := Nat.lt_of_le_of_lt (Nat.zero_le _) h
  have hnodup : ((List.range n).map (fun k => (i + k) % n)).Nodup := by
    refine List.Nodup.map_on ?_ (List.nodup_range _)
    intro x hx y hy hxy
    have hx' : x < n := List.mem_range.mp hx
    have hy' : y < n := List.mem_range.mp hy
    have hm : x ≡ y [MOD n] := Nat.ModEq.add_left_cancel' i hxy
    calc x = x % n := (Nat.mod_eq_of_lt hx').symm
    _ = y % n := hm
    _ = y := Nat.mod_eq_of_lt hy'
  have hsub : ((List.range n).map (fun k => (i + k) % n)) ⊆ List.range n := by
    intro a ha
    obtain ⟨k, hk, rfl⟩ := List.mem_map.mp ha
    exact List.mem_range.mpr (Nat.mod_lt _ hn)
  exact (hnodup.subperm hsub).perm_of_length_le (by simp)

/-- Claim C1 evaluation (code bug).  The claim asserts that at most one
process handle is ever active: every start is preceded by a completed stop.
On a host without the tmux binary the first kill-session call of
`kill_current_process` raises `FileNotFoundError`, the bare
`except Exception` swallows it — skipping the terminate, the grace wait
and the force kill — and the `finally` clears `current_process` anyway.
After two admitted switches from the fresh state the first view's process
(pid 0) is therefore still running alongside the second view's process
(pid 1): two active processes, and the serialization check over the trace
fails.  With the tmux binary present the same two switches keep at most
one process alive and the check passes. -/
theorem C1_two_processes_without_tmux :
    ((runSwitches false [(true, true), (true, true)] initState).1).alive
      = [0, 1] ∧
    ¬ ((runSwitches false [(true, true), (true, true)] initState).1).alive.length
        ≤ 1 ∧
    traceOk initState.alive
      (runSwitches false [(true, true), (true, true)] initState).2 = false ∧
    ((runSwitches false [(true, true), (true, true)] initState).1).current_process
      = some 1 ∧
    ((runSwitches true [(true, true), (true, true)] initState).1).alive = [1] ∧
    traceOk initState.alive
      (runSwitches true [(true, true), (true, true)] initState).2 = true := by
  decide

/-- Claim C2: for a non-empty view list the cursor always satisfies
`0 ≤ current_view < len(views)`, advancing wraps modulo `len(views)`, and
after exactly `len(views)` admitted signals (each starting successfully)
the cursor returns to its starting value, having attempted every view
exactly once — on hosts with and without the tmux binary. -/
theorem C2_cursor_wraps_and_cycles (tm : Bool) (s : ViewerState)
    (os : List (Bool × Bool)) (n : Nat)
    (hn : s.views.length = n) (hcv : s.current_view < n)
    (hlen : os.length = n) (hok : ∀ o ∈ os, o.2 = true) :
    (∀ k, k ≤ n →
      ((runSwitches tm (os.take k) s).1).current_view
        = (s.current_view + k) % n ∧
      ((runSwitches tm (os.take k) s).1).current_view < n) ∧
    ((runSwitches tm os s).1).current_view = s.current_view ∧
    attemptsOf (runSwitches tm os s).2
      = (List.range n).map (fun k => (s.current_view + k) % n) ∧
    (attemptsOf (runSwitches tm os s).2).Perm (List.range n) := by
  subst hn
  have hpos : 0 < s.views.length := Nat.lt_of_le_of_lt (Nat.zero_le _) hcv
  refine ⟨?_, ?_, ?_, ?_⟩
  · intro k hk
    have ht : (os.take k).length = k := by
      rw [List.length_take, hlen]
      omega
    refine ⟨?_, ?_⟩
    · rw [runSwitches_cv _ _ _ hcv, ht]
    · rw [runSwitches_cv _ _ _ hcv, ht]
      exact Nat.mod_lt _ hpos
  · rw [runSwitches_cv _ _ _ hcv, hlen, Nat.add_mod_right]
    exact Nat.mod_eq_of_lt hcv
  · rw [runSwitches_attempts _ _ _ hcv, hlen]
  · rw [runSwitches_attempts _ _ _ hcv, hlen]
    exact range_add_mod_perm _ _ hcv

/-- Witness for C2 on the three-view fresh state with three successful
admitted signals on a tmux-equipped host. -/
theorem C2_cursor_wraps_and_cycles_witness :
    initState.views.length = 3 ∧ initState.current_view < 3 ∧
    ([((true : Bool), (true : Bool)), (true, true), (true, true)].length = 3) ∧
    (∀ o ∈ [((true : Bool), (true : Bool)), (true, true), (true, true)],
      o.2 = true) ∧
    ((∀ k, k ≤ 3 →
      ((runSwitches true ([((true : Bool), (true : Bool)), (true, true),
          (true, true)].take k) initState).1).current_view
        = (initState.current_view + k) % 3 ∧
      ((runSwitches true ([((true : Bool), (true : Bool)), (true, true),
          (true, true)].take k) initState).1).current_view < 3) ∧
    ((runSwitches true [((true : Bool), (true : Bool)), (true, true),
        (true, true)] initState).1).current_view = initState.current_view ∧
    attemptsOf (runSwitches true [((true : Bool), (true : Bool)), (true, true),
        (true, true)] initState).2
      = (List.range 3).map (fun k => (initState.current_view + k) % 3) ∧
    (attemptsOf (runSwitches true [((true : Bool), (true : Bool)),
        (true, true), (true, true)] initState).2).Perm (List.range 3)) :=
  ⟨rfl, by decide, rfl, by decide,
    C2_cursor_wraps_and_cycles true initState
      [(true, true), (true, true), (true, true)] 3 rfl
      (by decide) rfl (by decide)⟩

/-- Claim C3 counterexample.  The claim asserts that two advance signals
with `t2 - t1 ≥ 1 s` yield exactly two started transitions, and that the
debounce behaviour holds for the keyboard input variant as well.  Both
parts fail on the code: two touch signals at times 2 and 3 (first one
admitted) start only one transition because the gate is strict, and two
space keypresses (at any spacing, hence in particular closer than 1 s)
start two transitions because the keyboard path has no debounce gate at
all. -/
theorem C3_counterexample :
    (touch_loop [⟨1, 330, 1, 2⟩, ⟨1, 330, 1, 3⟩]).2 = 1 ∧
    ¬ (touch_loop [⟨1, 330, 1, 2⟩, ⟨1, 330, 1, 3⟩]).2 = 2 ∧
    keyboard_transitions [' ', ' '] = 2 ∧
    ¬ keyboard_transitions [' ', ' '] ≤ 1 := by
  norm_num [touch_loop, touch_loop_step, debounce_time, keyboard_transitions,
    List.foldl]

/-- Claim C3, amended: for touch signals, with the first signal admitted
(`t1` past the initial debounce window), the gate admits the second signal
iff `t2 - t1 > 1 s` strictly, and the stored timestamp is updated only on
admission; hence two transitions start iff `t2 - t1 > 1 s` and one
otherwise.  The keyboard variant applies no debounce: every space keypress
starts a transition regardless of timing. -/
theorem C3_debounce_strict_touch_only (t1 t2 : ℚ)
    (h1 : debounce_time < t1) (h2 : t1 < t2) :
    (touch_loop [⟨1, 330, 1, t1⟩, ⟨1, 330, 1, t2⟩]).2
      = (if debounce_time < t2 - t1 then 2 else 1) ∧
    (touch_loop [⟨1, 330, 1, t1⟩, ⟨1, 330, 1, t2⟩]).1
      = (if debounce_time < t2 - t1 then t2 else t1) ∧
    (∀ m : Nat, keyboard_transitions (List.replicate m ' ') = m) := by
  have e1 : touch_loop_step ((0 : ℚ), (0 : Nat)) ⟨1, 330, 1, t1⟩ = (t1, 1) := by
    simp [touch_loop_step, h1]
  have e2 : touch_loop [⟨1, 330, 1, t1⟩, ⟨1, 330, 1, t2⟩]
      = if debounce_time < t2 - t1 then (t2, 2) else (t1, 1) := by
    show touch_loop_step (touch_loop_step (0, 0) ⟨1, 330, 1, t1⟩)
      ⟨1, 330, 1, t2⟩ = _
    rw [e1]
    by_cases hc : debounce_time < t2 - t1 <;> simp [touch_loop_step, hc]
  refine ⟨?_, ?_, ?_⟩
  · rw [e2]
    by_cases hc : debounce_time < t2 - t1 <;> simp [hc]
  · rw [e2]
    by_cases hc : debounce_time < t2 - t1 <;> simp [hc]
  · intro m
    induction m with
    | zero => rfl
    | succ k ih => simp [List.replicate_succ, keyboard_transitions, ih]

/-- Witness for the amended C3 at `t1 = 2`, `t2 = 3`. -/
theorem C3_debounce_strict_touch_only_witness :
    debounce_time < (2 : ℚ) ∧ (2 : ℚ) < 3 ∧
    ((touch_loop [⟨1, 330, 1, (2 : ℚ)⟩, ⟨1, 330, 1, 3⟩]).2
      = (if debounce_time < (3 : ℚ) - 2 then 2 else 1) ∧
    (touch_loop [⟨1, 330, 1, (2 : ℚ)⟩, ⟨1, 330, 1, 3⟩]).1
      = (if debounce_time < (3 : ℚ) - 2 then 3 else 2) ∧
    (∀ m : Nat, keyboard_transitions (List.replicate m ' ') = m)) :=
  ⟨by decide, by decide, C3_debounce_strict_touch_only 2 3 (by decide) (by decide)⟩

/-- Claim C4 counterexample.  The claim quantifies over every call to stop
with an active process.  On a host without the tmux binary the very first
kill-session call raises `FileNotFoundError`, which the bare
`except Exception` swallows, aborting the `try` body: the concrete stop of
the live process with pid 5 requests no termination, waits no grace
period, force-kills nothing and completes no kill-session request — its
action trace is empty and the process stays alive — yet the handle is
cleared. -/
theorem C4_counterexample :
    (kill_current_process false false procState).2 = [] ∧
    ¬ Action.terminateProc 5 false
        ∈ (kill_current_process false false procState).2 ∧
    ¬ Action.tmuxKillSession "apachelogs"
        ∈ (kill_current_process false false procState).2 ∧
    ((kill_current_process false false procState).1).alive = [5] ∧
    ((kill_current_process false false procState).1).current_process
      = none := by
  decide

/-- Claim C4, amended: on a host where the tmux binary is present (so the
kill-session calls do not raise), a stop with an active process issues the
idempotent kill-session requests for both fixed session names regardless
of the active view, requests graceful termination, waits the 0.5 s grace
period, force-kills the process iff it has not exited by then, and clears
the handle.  On a host without the tmux binary the first kill-session call
raises, the exception is swallowed, and the stop performs none of these
actions — it only clears the handle, leaving the process running. -/
theorem C4_stop_graceful_then_force (e : Bool) (s : ViewerState) (p : Nat)
    (h : s.current_process = some p) :
    (kill_current_process true e s).2
      = [Action.tmuxKillSession "logmonitoring",
         Action.tmuxKillSession "apachelogs",
         Action.terminateProc p e,
         Action.sleepSec (1 / 2)]
        ++ (if e then [] else [Action.killProc p]) ∧
    (Action.killProc p ∈ (kill_current_process true e s).2 ↔ e = false) ∧
    Action.tmuxKillSession "logmonitoring"
      ∈ (kill_current_process true e s).2 ∧
    Action.tmuxKillSession "apachelogs"
      ∈ (kill_current_process true e s).2 ∧
    ((kill_current_process true e s).1).current_process = none ∧
    (kill_current_process false e s).2 = [] ∧
    ((kill_current_process false e s).1).current_process = none ∧
    ((kill_current_process false e s).1).alive = s.alive := by
  cases e <;>
    simp [kill_current_process, subprocess_run, kw_capture, h]

/-- Witness for the amended C4 on a state whose current process (pid 5)
does not exit within the grace period. -/
theorem C4_stop_graceful_then_force_witness :
    procState.current_process = some 5 ∧
    ((kill_current_process true false procState).2
      = [Action.tmuxKillSession "logmonitoring",
         Action.tmuxKillSession "apachelogs",
         Action.terminateProc 5 false,
         Action.sleepSec (1 / 2)]
        ++ (if false then [] else [Action.killProc 5]) ∧
    (Action.killProc 5 ∈ (kill_current_process true false procState).2
      ↔ false = false) ∧
    Action.tmuxKillSession "logmonitoring"
      ∈ (kill_current_process true false procState).2 ∧
    Action.tmuxKillSession "apachelogs"
      ∈ (kill_current_process true false procState).2 ∧
    ((kill_current_process true false procState).1).current_process = none ∧
    (kill_current_process false false procState).2 = [] ∧
    ((kill_current_process false false procState).1).current_process = none ∧
    ((kill_current_process false false procState).1).alive
      = procState.alive) :=
  ⟨rfl, C4_stop_graceful_then_force false procState 5 rfl⟩

/-- Claim C5 counterexample.  The claim asserts that after a failing view
start the orchestrator advances the cursor one extra position beyond the
normal single advance and immediately attempts the following view once.
On the fresh three-view state with view 0 failing, the code instead leaves
the cursor at 1 (the ordinary single advance, not 2) and the trace shows
one single attempted view, index 0 — no immediate attempt of view 1. -/
theorem C5_counterexample :
    ((switch_view true true false initState).1).current_view = 1 ∧
    ¬ ((switch_view true true false initState).1).current_view = 2 ∧
    attemptsOf (switch_view true true false initState).2 = [0] ∧
    ¬ attemptsOf (switch_view true true false initState).2 = [0, 1] := by
  decide

/-- Claim C5, amended: when starting a view's command raises, the error is
caught and reported non-fatally, and the orchestrator advances the cursor
by exactly the same single position as a successful switch, so the failed
view is skipped and the following view is attempted only on the next
advance signal; the failed switch attempts exactly one view, spawns no
process, and does not re-enter teardown (at most the one initial terminate
appears in its trace). -/
theorem C5_failed_start_single_advance (tm e : Bool) (s : ViewerState) :
    ((switch_view tm e false s).1).current_view
      = ((switch_view tm e true s).1).current_view ∧
    ((switch_view tm e false s).1).current_view
      = (s.current_view + 1) % s.views.length ∧
    attemptsOf (switch_view tm e false s).2 = [s.current_view] ∧
    ((switch_view tm e false s).2.filter isSpawnProc).length = 0 ∧
    ((switch_view tm e false s).2.filter isTerminateProc).length ≤ 1 := by
  refine ⟨?_, switch_view_cv tm e false s, switch_view_attempts tm e false s,
    ?_, ?_⟩
  · rw [switch_view_cv, switch_view_cv]
  · cases h : s.current_process <;> cases tm <;> cases e <;>
      simp [switch_view, kill_current_process, subprocess_run, kw_capture, h,
        isSpawnProc]
  · cases h : s.current_process <;> cases tm <;> cases e <;>
      simp [switch_view, kill_current_process, subprocess_run, kw_capture, h,
        isTerminateProc]

/-- Claim C6 counterexample.  The claim asserts that with catalog
`{zemia_access, zemia_error}` and no multiplexer tool the registry holds
exactly the two single-stream views and in particular no combined-site
view.  On the code the combined main-site view is present — it is not
gated on any multiplexer tool — so the registry differs from the claimed
two-element sequence. -/
theorem C6_counterexample :
    ViewCmd.start_site_logs "zemia" ∈ build_available_views lp_zemia2 no_tools ∧
    ¬ build_available_views lp_zemia2 no_tools
        = [ViewCmd.start_single_log "/var/log/apache2/zemia-access.log",
           ViewCmd.start_single_log "/var/log/apache2/zemia-error.log"] := by
  decide

/-- Claim C6, amended: for the catalog containing exactly `zemia_access`
and `zemia_error` with no probed tool available, the built view sequence
contains exactly the zemia-access single view, the zemia-error single
view, the combined main-site view (which is not gated on multiplexer
availability), and the unconditional Pi System Monitor view — and no
tmux or multitail multi-pane view. -/
theorem C6_registry_two_zemia_logs_no_tools :
    build_available_views lp_zemia2 no_tools
      = [ViewCmd.start_single_log "/var/log/apache2/zemia-access.log",
         ViewCmd.start_single_log "/var/log/apache2/zemia-error.log",
         ViewCmd.start_site_logs "zemia",
         ViewCmd.start_pi_monitor] := by
  decide

/-- Claim C7 evaluation (code bug).  The claim describes the intended
destroy, create, 3-splits, 4-send-keys, attach sequence — which is exactly
what the statements of `start_tmux_apache_view` would issue in that order
— but the function's first statement passes `capture_output=True` together
with `stderr=subprocess.DEVNULL` and therefore raises `ValueError`
unconditionally, on every host and every catalog: none of the commands is
ever issued.  Moreover `check_command` has the identical conflict and
always reports `False`, so the tmux gate never admits the 4-pane view into
the registry in the first place. -/
theorem C7_apache_view_never_executes :
    start_tmux_apache_view true s_four = Except.error PyError.valueError ∧
    (∀ tm s, start_tmux_apache_view tm s = Except.error PyError.valueError) ∧
    check_command true true "tmux" = false ∧
    (∀ wp found command, check_command wp found command = false) :=
  ⟨rfl, fun _ _ => rfl, rfl, fun _ _ _ => rfl⟩

/-- Claim C8 evaluation (code bug).  The claim says every temporary
artifact — formatter scripts and the Pi monitor script — is added to the
tracked collection when created and released at shutdown.  The code tracks
formatter scripts (created and later removed by cleanup) but never appends
the Pi monitor script to `temp_scripts`, so after starting the Pi monitor
view and running cleanup the monitor script file is still on disk. -/
theorem C8_pi_monitor_script_orphaned :
    (start_pi_monitor initState).1.temp_scripts = [] ∧
    ((cleanup true true (start_pi_monitor initState).1).1).files = [0] ∧
    (create_formatter_script initState).1.temp_scripts = [0] ∧
    ((cleanup true true (create_formatter_script initState).1).1).files
      = [] := by
  decide

/-- Claim C9 evaluation (code bug).  The claim says a double cleanup raises
no exception, attempts no duplicate deletion, and leaves the state of the
first cleanup unchanged.  The state part is true: after a first cleanup
there is no current process and no tracked script, so a second cleanup
swallows zero unlink errors and leaves the state fixed.  But every single
invocation of `cleanup`, in every environment, raises `ValueError` at its
first trailing tmux kill-session — `capture_output=True` conflicts with
the `stderr` argument and the call is not inside any `try` — so "raises no
exception" is unconditionally false. -/
theorem C9_cleanup_always_raises (tm e1 e2 : Bool) (s : ViewerState) :
    (cleanup tm e1 s).2.2.2 = some PyError.valueError ∧
    (cleanup tm e2 (cleanup tm e1 s).1).2.2.2 = some PyError.valueError ∧
    (cleanup tm e2 (cleanup tm e1 s).1).1 = (cleanup tm e1 s).1 ∧
    (cleanup tm e2 (cleanup tm e1 s).1).2.2.1 = 0 ∧
    ((cleanup tm e1 s).1).current_process = none ∧
    ((cleanup tm e1 s).1).temp_scripts = [] := by
  cases s with
  | mk cv cp ts vs lp al fi np nf =>
    cases cp <;> cases tm <;>
      simp [cleanup, kill_current_process, subprocess_run, kw_capture,
        kw_capture_devnull, unlink_scripts]

/-- Claim C10: for every catalog and every tool configuration the built
view sequence is non-empty — the Pi System Monitor view is unconditionally
appended — so the fatal-exit branch of the constructor is never taken. -/
theorem C10_views_never_empty (lp : List (String × String)) (t : Tools) :
    ViewCmd.start_pi_monitor ∈ build_available_views lp t ∧
    build_available_views lp t ≠ [] ∧
    init_fatal_exit lp t = false := by
  have hm : ViewCmd.start_pi_monitor ∈ build_available_views lp t := by
    unfold build_available_views
    simp
  have hne : build_available_views lp t ≠ [] := List.ne_nil_of_mem hm
  refine ⟨hm, hne, ?_⟩
  simpa [init_fatal_exit, List.isEmpty_iff] using hne

end TouchLogViewer
